import Mathlib

/-!
Verification of the Response Interpretation & Adaptive Visualization Layer
of `streamlit/utils/cortex_client.py` (class `CortexClient`).

The embedding below translates, from the Python source:
  * `_parse_ai_response`      — response normalization (`parse_ai_response`);
  * `_create_chart_if_needed` and the four chart builders — chart archetype
    selection over a pandas DataFrame built from the `data` payload;
  * `_get_fallback_response`  — the keyword-indexed fallback knowledge base;
  * `ask_ai`                  — the dispatcher choosing the upstream call.

Modelling conventions:
  * JSON-compatible Python values are the inductive `Json`; numeric cells are
    modelled as integers (every numeric literal in the repository's data
    tables is an integer; floats play no role in the claims).
  * A Python string raw response is `RawResponse.text s parsed`, where
    `parsed` carries the outcome of `json.loads s` (`none` when it raises
    `json.JSONDecodeError`): this replaces embedding a character-level JSON
    parser, and a text produced by `json.dumps M` is exactly a text whose
    `parsed` is `some M`.
  * Python exception flow in `_parse_ai_response` is explicit: the body is
    an `Except` computation (`parseBody`), the outer `except Exception`
    is the catch in `parse_ai_response`.
  * pandas dtype inference for `pd.DataFrame(list-of-dicts)` is `inferDtype`:
    all-integer columns are `int64`, integer columns with missing/`None`
    cells are `float64`, all-bool columns are `bool`, everything else
    (in particular string cells, even numeric-looking ones) is `object`.
    `pd.DataFrame` on a list mixing dicts with non-dicts raises, which the
    `try` in `_create_chart_if_needed` turns into `None` (`asRecords`).
  * Result dicts are association lists `PyDict` in construction order, so
    presence/absence of a key (claim C8) is observable; `RVal.js Json.null`
    is Python `None`, `RVal.fig c` is a plotly figure.
-/

/-- Substring test on character lists: true iff the second list occurs as a
contiguous run in the first (Python `pat in s`; the empty pattern matches). -/
def charListContains : List Char → List Char → Bool
  | [], pat => pat.isEmpty
  | s@(_ :: rest), pat => pat.isPrefixOf s || charListContains rest pat

/-- Python `pat in s` on strings. -/
def strContains (s pat : String) : Bool :=
  charListContains s.toList pat.toList

/-- Python `s.lower()` (ASCII, which covers every string the module uses). -/
def lowerStr (s : String) : String :=
  String.mk (s.toList.map Char.toLower)

/-- JSON-compatible Python values (dicts, lists, strings, ints, bools, None). -/
inductive Json where
  | null
  | bool (b : Bool)
  | num (n : Int)
  | str (s : String)
  | arr (elems : List Json)
  | obj (fields : List (String × Json))

/-- Python `d.get(key)` on a dict represented as an association list (dict
keys are unique in Python, so first-match lookup is dict lookup). -/
def jsonGet (fields : List (String × Json)) (key : String) : Option Json :=
  (fields.find? (fun kv => kv.1 == key)).map (fun kv => kv.2)

/-- Whether a JSON value is an object (a Python dict, the only `json.loads`
result owning a `.get` method). -/
def jsonIsObj : Json → Bool
  | .obj _ => true
  | _ => false

/-- Field access on a row that is a JSON object; `none` otherwise. -/
def rowGet (row : Json) (key : String) : Option Json :=
  match row with
  | .obj fields => jsonGet fields key
  | _ => none

/-- The plotly figures the four chart builders can produce, identified by
builder, bound columns, and title exactly as in the source. -/
inductive ChartSpec where
  | line (x y title : String)
  | pie (names values title : String)
  | bar (x y title : String)
  | scatter (x y title : String)
  deriving DecidableEq

/-- The pandas dtypes that can arise for columns over our cell universe. -/
inductive Dtype where
  | int64
  | float64
  | boolDt
  | object
  deriving DecidableEq

/-- A cell holding an actual number. -/
def cellIsNum : Option Json → Bool
  | some (.num _) => true
  | _ => false

/-- A missing cell (absent key) or an explicit Python `None`: both become
NaN when the rest of the column is numeric. -/
def cellIsHole : Option Json → Bool
  | none => true
  | some .null => true
  | _ => false

/-- A cell holding a Python bool. -/
def cellIsBool : Option Json → Bool
  | some (.bool _) => true
  | _ => false

/-- pandas dtype inference for one column of `pd.DataFrame(list-of-dicts)`
over our cell universe (see the module docstring). -/
def inferDtype (cells : List (Option Json)) : Dtype :=
  if cells.isEmpty then .object
  else if cells.all cellIsNum then .int64
  else if cells.all (fun c => cellIsNum c || cellIsHole c) && cells.any cellIsNum then .float64
  else if cells.all cellIsBool then .boolDt
  else .object

/-- Append the keys of one record to an accumulated column list, keeping
first-appearance order and dropping duplicates (pandas column union). -/
def addKeys (acc : List String) (ks : List String) : List String :=
  ks.foldl (fun a k => if k ∈ a then a else a ++ [k]) acc

/-- A DataFrame built by `pd.DataFrame(records)`: the ordered column union
plus the raw records (cells are recovered by key lookup, missing → NaN). -/
structure Df where
  columns : List String
  records : List (List (String × Json))

/-- Build the DataFrame for a list of dict records. -/
def mkDf (records : List (List (String × Json))) : Df :=
  { columns := records.foldl (fun acc rec => addKeys acc (rec.map (fun kv => kv.1))) []
    records := records }

/-- The cells of column `c` (`df[c]`), one `Option Json` per row. -/
def colCells (df : Df) (c : String) : List (Option Json) :=
  df.records.map (fun rec => jsonGet rec c)

/-- `df[c].dtype`. -/
def dtypeOf (df : Df) (c : String) : Dtype :=
  inferDtype (colCells df c)

/-- Python `df[col].dtype in ['int64', 'float64']`. -/
def isNumericDtype : Dtype → Bool
  | .int64 => true
  | .float64 => true
  | _ => false

/-- Python `df[col].dtype == 'object'`. -/
def isObjectDtype : Dtype → Bool
  | .object => true
  | _ => false

/-- `[col for col in df.columns if 'date' in col.lower() or 'time' in col.lower()]`. -/
def dateColsOf (df : Df) : List String :=
  df.columns.filter (fun c => strContains (lowerStr c) "date" || strContains (lowerStr c) "time")

/-- `[col for col in df.columns if df[col].dtype in ['int64', 'float64']]`. -/
def valueColsOf (df : Df) : List String :=
  df.columns.filter (fun c => isNumericDtype (dtypeOf df c))

/-- `[col for col in df.columns if df[col].dtype == 'object']`. -/
def textColsOf (df : Df) : List String :=
  df.columns.filter (fun c => isObjectDtype (dtypeOf df c))

/-- `CortexClient._create_time_series_chart`. -/
def create_time_series_chart (df : Df) : Option ChartSpec :=
  match dateColsOf df, valueColsOf df with
  | d :: _, v :: _ => some (.line d v "Trend Analysis")
  | _, _ => none

/-- `CortexClient._create_category_chart` (`len(df) <= 5` picks the pie). -/
def create_category_chart (df : Df) : Option ChartSpec :=
  match textColsOf df, valueColsOf df with
  | t :: _, v :: _ =>
      if df.records.length ≤ 5 then some (.pie t v "Distribution")
      else some (.bar t v "Category Analysis")
  | _, _ => none

/-- `CortexClient._create_scatter_chart` (`len(numeric_cols) >= 2`). -/
def create_scatter_chart (df : Df) : Option ChartSpec :=
  match valueColsOf df with
  | a :: b :: _ => some (.scatter a b "Correlation Analysis")
  | _ => none

/-- `CortexClient._create_bar_chart` (`len(df.columns) >= 2`). -/
def create_bar_chart (df : Df) : Option ChartSpec :=
  match df.columns with
  | a :: b :: _ => some (.bar a b "Data Analysis")
  | _ => none

/-- The context-keyword dispatch of `_create_chart_if_needed` (lines
262-270): first matching keyword group picks the single builder that runs;
a builder returning `None` is final, there is no fall-through. -/
def dispatchChart (df : Df) (context : String) : Option ChartSpec :=
  if strContains (lowerStr context) "trend" || strContains (lowerStr context) "time" then
    create_time_series_chart df
  else if strContains (lowerStr context) "tier" || strContains (lowerStr context) "category" then
    create_category_chart df
  else if strContains (lowerStr context) "risk" || strContains (lowerStr context) "score" then
    create_scatter_chart df
  else create_bar_chart df

/-- `pd.DataFrame(data)` on a list whose head is a dict: succeeds when every
element is a dict; a non-dict element makes the constructor raise, which the
surrounding `try` converts to `None`. -/
def asRecords : List Json → Option (List (List (String × Json)))
  | [] => some []
  | .obj f :: rest => (asRecords rest).map (fun rs => f :: rs)
  | _ => none

/-- `CortexClient._create_chart_if_needed` (lines 236-273). -/
def create_chart_if_needed (data : Json) (context : String) : Option ChartSpec :=
  match data with
  | .arr elems =>
    match elems with
    | [] => none
    | first :: _ =>
      match first with
      | .obj _ =>
        match asRecords elems with
        | some records => dispatchChart (mkDf records) context
        | none => none
      | _ => none
  | .obj fields =>
    if fields.isEmpty then none else dispatchChart (mkDf [fields]) context
  | _ => none

/-- Values stored in a result dict: a JSON-compatible value (`Json.null`
being Python `None`) or a plotly figure. -/
inductive RVal where
  | js (j : Json)
  | fig (c : ChartSpec)

/-- A Python dict result in construction order. -/
abbrev PyDict := List (String × RVal)

/-- The `"chart"` slot: a figure, or `None` when no chart was built. -/
def chartField (c : Option ChartSpec) : RVal :=
  match c with
  | some f => RVal.fig f
  | none => RVal.js Json.null

/-- A raw upstream response value as `_parse_ai_response` receives it. -/
inductive RawResponse where
  /-- A Python `str`; `parsed` is the outcome of `json.loads` on it
  (`none` when it raises `json.JSONDecodeError`). -/
  | text (s : String) (parsed : Option Json)
  /-- A value owning a `.get` method, i.e. a dict; `reprStr` is `str(value)`. -/
  | mapLike (fields : List (String × Json)) (reprStr : String)
  /-- Anything else; `reprStr` is `str(value)`. -/
  | other (reprStr : String)

/-- Body of the outer `try` of `_parse_ai_response`; `Except.error` is an
uncaught exception reaching the outer handler.  In the string branch, the
inner `except json.JSONDecodeError` handles only a parse failure; when
`json.loads` yields a non-dict (list, number, string, bool, None), the call
`parsed.get(...)` raises `AttributeError`, which escapes the inner try. -/
def parseBody (response_data : RawResponse) (context : String) : Except String PyDict :=
  match response_data with
  | .text s parsed =>
    match parsed with
    | some (.obj fields) =>
      .ok [("message", .js ((jsonGet fields "message").getD (.str s))),
           ("data", .js ((jsonGet fields "data").getD .null)),
           ("chart", chartField (create_chart_if_needed ((jsonGet fields "data").getD .null) context))]
    | some _ => .error "AttributeError"
    | none =>
      .ok [("message", .js (.str s)), ("data", .js .null), ("chart", .js .null)]
  | .mapLike fields reprStr =>
      .ok [("message", .js ((jsonGet fields "message").getD (.str reprStr))),
           ("data", .js ((jsonGet fields "data").getD .null)),
           ("chart", chartField (create_chart_if_needed ((jsonGet fields "data").getD .null) context))]
  | .other reprStr =>
      .ok [("message", .js (.str reprStr)), ("data", .js .null), ("chart", .js .null)]

/-- `CortexClient._parse_ai_response` (lines 185-234): the body above with
its `except Exception` handler returning the generic context message. -/
def parse_ai_response (response_data : RawResponse) (context : String) : PyDict :=
  match parseBody response_data context with
  | .ok resp => resp
  | .error _ =>
      [("message", .js (.str ("Generated response for: " ++ context))),
       ("data", .js .null), ("chart", .js .null)]

/-- The three data rows of the churn fallback entry (lines 328-332). -/
def churnRows : List Json :=
  [.obj [("Risk Level", .str "High"), ("Count", .num 3), ("Action", .str "Immediate outreach")],
   .obj [("Risk Level", .str "Medium"), ("Count", .num 8), ("Action", .str "Proactive engagement")],
   .obj [("Risk Level", .str "Low"), ("Count", .num 15), ("Action", .str "Standard nurturing")]]

/-- The churn fallback response dict (lines 326-333): only `message` and
`data` keys, no `chart` key. -/
def churnResponse : PyDict :=
  [("message", .js (.str "Based on our analysis, customers with high churn risk typically show: decreased login frequency, support ticket escalations, and low satisfaction scores. I recommend immediate outreach for customers with risk scores above 0.7.")),
   ("data", .js (.arr churnRows))]

/-- The three data rows of the revenue fallback entry (lines 336-340). -/
def revenueRows : List Json :=
  [.obj [("Opportunity", .str "Premium Upsell"), ("Potential", .str "$45,000"), ("Probability", .str "70%")],
   .obj [("Opportunity", .str "Cross-sell"), ("Potential", .str "$23,000"), ("Probability", .str "85%")],
   .obj [("Opportunity", .str "Expansion"), ("Potential", .str "$67,000"), ("Probability", .str "60%")]]

/-- The revenue fallback response dict (lines 334-341). -/
def revenueResponse : PyDict :=
  [("message", .js (.str "Revenue opportunities include: upselling premium features to gold customers, cross-selling complementary products, and expanding successful pilot programs.")),
   ("data", .js (.arr revenueRows))]

/-- The three data rows of the support fallback entry (lines 344-348). -/
def supportRows : List Json :=
  [.obj [("Issue Type", .str "Billing"), ("Count", .num 12), ("Avg Resolution", .str "24 hours")],
   .obj [("Issue Type", .str "Shipping"), ("Count", .num 8), ("Avg Resolution", .str "12 hours")],
   .obj [("Issue Type", .str "Technical"), ("Count", .num 5), ("Avg Resolution", .str "36 hours")]]

/-- The support fallback response dict (lines 342-349). -/
def supportResponse : PyDict :=
  [("message", .js (.str "Support trends show billing issues as the top category, followed by shipping delays. Average resolution time is 18 hours with 4.2/5 satisfaction.")),
   ("data", .js (.arr supportRows))]

/-- Python `any(word in question_lower for word in words)`. -/
def anyKeyword (question_lower : String) (words : List String) : Bool :=
  words.any (fun w => strContains question_lower w)

/-- The keyword-matching portion of `_get_fallback_response` (lines 352-359),
i.e. the Fallback Knowledge Base `lookup`: first matching entry in
registration order, `none` when no keyword of any entry occurs. -/
def fallbackLookup (question : String) : Option PyDict :=
  let q := lowerStr question
  if anyKeyword q ["churn", "risk", "leaving"] then some churnResponse
  else if anyKeyword q ["revenue", "money", "opportunity", "upsell"] then some revenueResponse
  else if anyKeyword q ["support", "ticket", "issue", "problem"] then some supportResponse
  else none

/-- The generic last-resort response of `_get_fallback_response`
(lines 360-365). -/
def genericFallback (question : String) : PyDict :=
  [("message", .js (.str ("I understand you\x27re asking about: " ++ question ++ ". While I\x27m currently connecting to our AI services, I can help you explore customer data through the dashboard and analytics views."))),
   ("data", .js .null), ("chart", .js .null)]

/-- `CortexClient._get_fallback_response` (lines 314-365): the lookup chain
with its `else` branch (the `customer_id` argument is accepted and unused,
as in the source). -/
def get_fallback_response (question : String) (customer_id : Option String) : PyDict :=
  match fallbackLookup question with
  | some resp => resp
  | none => genericFallback question

/-- The SQL call `ask_ai` issues, with its bound parameters. -/
inductive UpstreamRequest where
  | analyzeCustomer (customerId : String) (analysisType : String)
  | askCustomer360 (question : String)
  deriving DecidableEq

/-- Outcome of the upstream query: an exception, an empty result set, or the
`RESPONSE` value of the first row. -/
inductive UpstreamResult where
  | failure
  | emptyResult
  | value (response : RawResponse)

/-- The query selection of `ask_ai` (lines 37-48): Python `if customer_id:`
is truthiness, so `None` and the empty string both take the general branch. -/
def buildUpstreamRequest (question : String) (customer_id : Option String) : UpstreamRequest :=
  match customer_id with
  | some cid => if cid = "" then .askCustomer360 question else .analyzeCustomer cid "overview"
  | none => .askCustomer360 question

/-- The apology dict returned when the result set is empty (lines 54-58). -/
def apologyResponse : PyDict :=
  [("message", .js (.str "I\x27m sorry, I couldn\x27t process your request at this time.")),
   ("data", .js .null), ("chart", .js .null)]

/-- `CortexClient.ask_ai` (lines 24-62), parametric in the upstream service:
a raised exception routes to `_get_fallback_response`, an empty result set
returns the apology dict directly, and a value is parsed with the question
as context. -/
def ask_ai (upstream : UpstreamRequest → UpstreamResult) (question : String)
    (customer_id : Option String) : PyDict :=
  match upstream (buildUpstreamRequest question customer_id) with
  | .value rd => parse_ai_response rd question
  | .emptyResult => apologyResponse
  | .failure => get_fallback_response question customer_id

/-- Test-data builder: a two-column dataset whose first column holds string
cells and whose second holds integer cells, one record per row. -/
def twoColData (dn vn : String) (rows : List (String × Int)) : Json :=
  .arr (rows.map (fun p => .obj [(dn, .str p.1), (vn, .num p.2)]))

/-- Test-data builder: the records of `twoColData` before wrapping. -/
def twoColRecords (dn vn : String) (rows : List (String × Int)) : List (List (String × Json)) :=
  rows.map (fun p => [(dn, Json.str p.1), (vn, Json.num p.2)])

/-- Test-data builder: a one-column dataset with the given cells. -/
def oneColRecords (name : String) (cells : List Json) : List (List (String × Json)) :=
  cells.map (fun c => [(name, c)])

/-- Adding keys that are all already present leaves the column list unchanged. -/
theorem addKeys_absorb (ks : List String) (acc : List String) (h : ∀ k ∈ ks, k ∈ acc) :
    addKeys acc ks = acc := by
  induction ks generalizing acc with
  | nil => rfl
  | cons k ks ih =>
      show (k :: ks).foldl _ acc = acc
      rw [List.foldl_cons]
      simp only [h k (by simp), if_true]
      exact ih acc (fun x hx => h x (by simp [hx]))

/-- Folding records whose keys are already in the accumulator is the identity. -/
theorem foldl_addKeys_absorb (recs : List (List (String × Json))) (acc : List String)
    (h : ∀ rec ∈ recs, ∀ k ∈ rec.map (fun kv => kv.1), k ∈ acc) :
    recs.foldl (fun a rec => addKeys a (rec.map (fun kv => kv.1))) acc = acc := by
  induction recs with
  | nil => rfl
  | cons rec recs ih =>
      rw [List.foldl_cons, addKeys_absorb _ _ (h rec (by simp))]
      exact ih (fun r hr k hk => h r (by simp [hr]) k hk)

/-- `pd.DataFrame` construction succeeds on a list of dicts and recovers
exactly those records. -/
theorem asRecords_map_obj (l : List (List (String × Json))) :
    asRecords (l.map Json.obj) = some l := by
  induction l with
  | nil => rfl
  | cons a as ih => simp [asRecords, ih]

/-- Lookup of the only key of a one-field record. -/
theorem jsonGet_one (name : String) (c : Json) : jsonGet [(name, c)] name = some c := by
  simp [jsonGet, List.find?]

/-- Lookup of the first key of a two-field record. -/
theorem jsonGet_two_fst (dn vn : String) (a b : Json) :
    jsonGet [(dn, a), (vn, b)] dn = some a := by
  simp [jsonGet, List.find?]

/-- Lookup of the second key of a two-field record with distinct keys. -/
theorem jsonGet_two_snd (dn vn : String) (hdv : dn ≠ vn) (a b : Json) :
    jsonGet [(dn, a), (vn, b)] vn = some b := by
  have hb : (dn == vn) = false := by simp [hdv]
  simp [jsonGet, List.find?, hb]

/-- A column whose head cell is a string is an `object` column. -/
theorem inferDtype_head_str (t : String) (cs : List (Option Json)) :
    inferDtype (some (Json.str t) :: cs) = .object := by
  simp [inferDtype, cellIsNum, cellIsHole, cellIsBool]

/-- A nonempty column of actual numbers is an `int64` column. -/
theorem inferDtype_all_num (c : Option Json) (cs : List (Option Json))
    (h : (c :: cs).all cellIsNum = true) : inferDtype (c :: cs) = .int64 := by
  simp [inferDtype, h]

/-- Columns of the two-column test dataset. -/
theorem twoCol_columns (dn vn : String) (hdv : dn ≠ vn) (r : String × Int)
    (rs : List (String × Int)) :
    (mkDf (twoColRecords dn vn (r :: rs))).columns = [dn, vn] := by
  show (twoColRecords dn vn (r :: rs)).foldl _ [] = _
  rw [twoColRecords, List.map_cons, List.foldl_cons]
  have h0 : addKeys [] ([(dn, Json.str r.1), (vn, Json.num r.2)].map (fun kv => kv.1))
      = [dn, vn] := by
    simp [addKeys, Ne.symm hdv]
  rw [h0]
  refine foldl_addKeys_absorb _ _ ?_
  intro rec hr k hk
  simp only [List.mem_map] at hr
  obtain ⟨p, hp, rfl⟩ := hr
  simp only [List.map_cons, List.map_nil, List.mem_cons, List.not_mem_nil, or_false] at hk
  rcases hk with rfl | rfl <;> simp

/-- Cells of the first column of the two-column test dataset. -/
theorem twoCol_cells_fst (dn vn : String) (rows : List (String × Int)) :
    colCells (mkDf (twoColRecords dn vn rows)) dn
      = rows.map (fun p => some (Json.str p.1)) := by
  simp [colCells, mkDf, twoColRecords, List.map_map, Function.comp, jsonGet_two_fst]

/-- Cells of the second column of the two-column test dataset. -/
theorem twoCol_cells_snd (dn vn : String) (hdv : dn ≠ vn) (rows : List (String × Int)) :
    colCells (mkDf (twoColRecords dn vn rows)) vn
      = rows.map (fun p => some (Json.num p.2)) := by
  simp [colCells, mkDf, twoColRecords, List.map_map, Function.comp,
    jsonGet_two_snd dn vn hdv]

/-- The first (string-valued) column of the two-column test dataset has
`object` dtype. -/
theorem twoCol_dtype_fst (dn vn : String) (r : String × Int) (rs : List (String × Int)) :
    dtypeOf (mkDf (twoColRecords dn vn (r :: rs))) dn = .object := by
  rw [dtypeOf, twoCol_cells_fst, List.map_cons]
  exact inferDtype_head_str r.1 _

/-- The second (integer-valued) column of the two-column test dataset has
`int64` dtype. -/
theorem twoCol_dtype_snd (dn vn : String) (hdv : dn ≠ vn) (r : String × Int)
    (rs : List (String × Int)) :
    dtypeOf (mkDf (twoColRecords dn vn (r :: rs))) vn = .int64 := by
  rw [dtypeOf, twoCol_cells_snd dn vn hdv, List.map_cons]
  refine inferDtype_all_num _ _ ?_
  rw [List.all_eq_true]
  intro x hx
  rcases List.mem_cons.mp hx with rfl | hx
  · rfl
  · obtain ⟨p, hp, rfl⟩ := List.mem_map.mp hx
    rfl

/-- Columns of the one-column test dataset. -/
theorem oneCol_columns (name : String) (c : Json) (cs : List Json) :
    (mkDf (oneColRecords name (c :: cs))).columns = [name] := by
  show (oneColRecords name (c :: cs)).foldl _ [] = _
  rw [oneColRecords, List.map_cons, List.foldl_cons]
  have h0 : addKeys [] ([(name, c)].map (fun kv => kv.1)) = [name] := by
    simp [addKeys]
  rw [h0]
  refine foldl_addKeys_absorb _ _ ?_
  intro rec hr k hk
  simp only [List.mem_map] at hr
  obtain ⟨x, hx, rfl⟩ := hr
  simp only [List.map_cons, List.map_nil, List.mem_cons, List.not_mem_nil, or_false] at hk
  simp [hk]

/-- Cells of the one-column test dataset. -/
theorem oneCol_cells (name : String) (cells : List Json) :
    colCells (mkDf (oneColRecords name cells)) name = cells.map some := by
  simp [colCells, mkDf, oneColRecords, List.map_map, Function.comp, jsonGet_one]

/-- `_create_chart_if_needed` on a nonempty list of dicts dispatches on the
context keywords over the DataFrame of those records. -/
theorem create_chart_on_records (f : List (String × Json))
    (fs : List (List (String × Json))) (context : String) :
    create_chart_if_needed (.arr ((f :: fs).map Json.obj)) context
      = dispatchChart (mkDf (f :: fs)) context := by
  simp [create_chart_if_needed, asRecords, asRecords_map_obj]

/-- The context `"show the trend over time"` selects the time-series builder. -/
theorem dispatch_trend (df : Df) :
    dispatchChart df "show the trend over time" = create_time_series_chart df := by
  have h : (strContains (lowerStr "show the trend over time") "trend"
      || strContains (lowerStr "show the trend over time") "time") = true := by decide
  simp [dispatchChart, h]

/-- The context `"show distribution by category"` selects the category builder. -/
theorem dispatch_category (df : Df) :
    dispatchChart df "show distribution by category" = create_category_chart df := by
  have h1 : (strContains (lowerStr "show distribution by category") "trend"
      || strContains (lowerStr "show distribution by category") "time") = false := by decide
  have h2 : (strContains (lowerStr "show distribution by category") "tier"
      || strContains (lowerStr "show distribution by category") "category") = true := by decide
  simp [dispatchChart, h1, h2]

/-- C3 — totality of normalization: for every `RawResponse` value (plain
text, JSON text whether or not it parses, map-like object, or anything
else), `_parse_ai_response` returns a dict with exactly the keys
`message`, `data`, `chart`; the internal exception (the `.get` call on a
non-dict parse result) is absorbed by the outer handler, so no exception
propagates to the caller. -/
theorem C3_normalize_total (rd : RawResponse) (context : String) :
    (parse_ai_response rd context).map Prod.fst = ["message", "data", "chart"] := by
  cases rd with
  | text s parsed =>
      cases parsed with
      | none => rfl
      | some j => cases j <;> rfl
  | mapLike fields reprStr => rfl
  | other reprStr => rfl

/-- C6 — idempotent normalization: a map `M` containing a `message` field
normalizes to the same dict whether it arrives already structured or as any
text whose `json.loads` outcome is `M` (in particular the `json.dumps`
encoding of `M`); the string-branch and dict-branch defaults are never used. -/
theorem C6_idempotent_normalization (fields : List (String × Json))
    (s reprStr context : String) (h : (jsonGet fields "message").isSome = true) :
    parse_ai_response (RawResponse.text s (some (Json.obj fields))) context
      = parse_ai_response (RawResponse.mapLike fields reprStr) context := by
  obtain ⟨m, hm⟩ := Option.isSome_iff_exists.mp h
  simp [parse_ai_response, parseBody, hm]

/-- Witness for C6 at a concrete one-field map. -/
theorem C6_witness :
    parse_ai_response (RawResponse.text "x" (some (Json.obj [("message", Json.str "hi")]))) "c"
      = parse_ai_response (RawResponse.mapLike [("message", Json.str "hi")] "y") "c" :=
  C6_idempotent_normalization [("message", Json.str "hi")] "x" "y" "c" (by rfl)

/-- C10 — for text input that parses as JSON but not as an object, the
`.get` call raises internally and the recovery branch returns the generic
`Generated response for: <context>` message with null data and chart (the
original text is not used as the message). -/
theorem C10_nonobject_json_text (s context : String) (j : Json)
    (h : jsonIsObj j = false) :
    parse_ai_response (RawResponse.text s (some j)) context
      = [("message", RVal.js (Json.str ("Generated response for: " ++ context))),
         ("data", RVal.js Json.null), ("chart", RVal.js Json.null)] := by
  cases j with
  | obj fields => simp [jsonIsObj] at h
  | null => rfl
  | bool b => rfl
  | num n => rfl
  | str t => rfl
  | arr es => rfl

/-- Witness for C10 at a JSON array literal. -/
theorem C10_witness :
    parse_ai_response (RawResponse.text "[1]" (some (Json.arr [Json.num 1]))) "weekly summary"
      = [("message", RVal.js (Json.str ("Generated response for: " ++ "weekly summary"))),
         ("data", RVal.js Json.null), ("chart", RVal.js Json.null)] :=
  C10_nonobject_json_text "[1]" "weekly summary" (Json.arr [Json.num 1]) (by rfl)

/-- C8 — the churn, revenue and support fallback dicts carry only the
`message` and `data` keys (no `chart` key at all), while the generic
fallback and every normalized response carry the canonical
`message`/`data`/`chart` key set. -/
theorem C8_fallback_shape :
    churnResponse.map Prod.fst = ["message", "data"] ∧
    revenueResponse.map Prod.fst = ["message", "data"] ∧
    supportResponse.map Prod.fst = ["message", "data"] ∧
    (∀ q : String, (genericFallback q).map Prod.fst = ["message", "data", "chart"]) ∧
    ∀ (rd : RawResponse) (context : String),
      (parse_ai_response rd context).map Prod.fst = ["message", "data", "chart"] := by
  refine ⟨rfl, rfl, rfl, fun q => rfl, fun rd context => ?_⟩
  cases rd with
  | text s parsed =>
      cases parsed with
      | none => rfl
      | some j => cases j <;> rfl
  | mapLike fields reprStr => rfl
  | other reprStr => rfl

/-- C2 counterexample — with the upstream succeeding but returning an empty
result set for the question `"churn"`, `ask_ai` returns the apology dict
even though the fallback knowledge base has a churn entry for that
question; the fallback is consulted only when the upstream call raises. -/
theorem C2_counterexample :
    ask_ai (fun _ => UpstreamResult.emptyResult) "churn" none = apologyResponse ∧
    fallbackLookup "churn" = some churnResponse ∧
    ask_ai (fun _ => UpstreamResult.failure) "churn" none = churnResponse ∧
    apologyResponse ≠ churnResponse := by
  refine ⟨rfl, rfl, rfl, ?_⟩
  simp [apologyResponse, churnResponse]

/-- C2 (amended) — on an upstream result that is an empty result set,
`ask_ai` returns the fixed apology dict directly, without consulting the
fallback knowledge base; the knowledge base is consulted exactly when the
upstream call raises. -/
theorem C2_empty_result_behavior (q : String) (cid : Option String)
    (u1 u2 : UpstreamRequest → UpstreamResult)
    (h1 : u1 (buildUpstreamRequest q cid) = UpstreamResult.emptyResult)
    (h2 : u2 (buildUpstreamRequest q cid) = UpstreamResult.failure) :
    ask_ai u1 q cid = apologyResponse ∧
    ask_ai u2 q cid = get_fallback_response q cid := by
  constructor
  · rw [ask_ai, h1]
  · rw [ask_ai, h2]

/-- Witness for C2 at a concrete question and concrete upstream services. -/
theorem C2_witness :
    ask_ai (fun _ => UpstreamResult.emptyResult) "what is our churn risk" none
      = apologyResponse ∧
    ask_ai (fun _ => UpstreamResult.failure) "what is our churn risk" none
      = get_fallback_response "what is our churn risk" none :=
  C2_empty_result_behavior "what is our churn risk" none _ _ rfl rfl

/-- C1 counterexample data: two rows over one temporal (string-valued) and
one numeric column. -/
def c1Data : Json := twoColData "date" "value" [("2024-01", 1), ("2024-02", 2)]

/-- C1 counterexample — on a dataset with exactly one temporal and one
numeric column, the trend context does give the time-series chart, but the
context `"show distribution by category"` (no categorical column present)
gives the categorical-distribution pie chart, not generic-comparison: the
string-valued temporal column counts as a text column in
`_create_category_chart`, and there is no fall-through to rule 4. -/
theorem C1_counterexample :
    create_chart_if_needed c1Data "show the trend over time"
      = some (ChartSpec.line "date" "value" "Trend Analysis") ∧
    create_chart_if_needed c1Data "show distribution by category"
      = some (ChartSpec.pie "date" "value" "Distribution") ∧
    create_chart_if_needed c1Data "show distribution by category"
      ≠ some (ChartSpec.bar "date" "value" "Data Analysis") ∧
    create_chart_if_needed c1Data "show distribution by category" ≠ none := by
  refine ⟨by decide, by decide, by decide, by decide⟩

/-- C1 (amended) — selector priority on a dataset with exactly one temporal
(string-valued, date/time-named) column and one numeric column: the context
`"show the trend over time"` always yields the time-series chart binding the
temporal column to x and the numeric column to y; the context
`"show distribution by category"` dispatches on the `category` keyword to
the category builder, where the string-valued temporal column counts as the
text column, yielding the categorical-distribution chart (pie for at most
five rows, bar above) — never generic-comparison and never null. -/
theorem C1_selector_priority (dn vn : String) (r : String × Int)
    (rs : List (String × Int)) (hdv : dn ≠ vn)
    (hdate : strContains (lowerStr dn) "date" = true
      ∨ strContains (lowerStr dn) "time" = true) :
    create_chart_if_needed (twoColData dn vn (r :: rs)) "show the trend over time"
      = some (ChartSpec.line dn vn "Trend Analysis") ∧
    create_chart_if_needed (twoColData dn vn (r :: rs)) "show distribution by category"
      = some (if (r :: rs).length ≤ 5 then ChartSpec.pie dn vn "Distribution"
              else ChartSpec.bar dn vn "Category Analysis") := by
  have hcols := twoCol_columns dn vn hdv r rs
  have hfst := twoCol_dtype_fst dn vn r rs
  have hsnd := twoCol_dtype_snd dn vn hdv r rs
  have hval : valueColsOf (mkDf (twoColRecords dn vn (r :: rs))) = [vn] := by
    simp [valueColsOf, hcols, hfst, hsnd, isNumericDtype]
  have htext : textColsOf (mkDf (twoColRecords dn vn (r :: rs))) = [dn] := by
    simp [textColsOf, hcols, hfst, hsnd, isObjectDtype]
  have hp : (strContains (lowerStr dn) "date" || strContains (lowerStr dn) "time")
      = true := by
    rcases hdate with h | h <;> simp [h]
  have hdata : twoColData dn vn (r :: rs)
      = .arr ((twoColRecords dn vn (r :: rs)).map Json.obj) := by
    simp [twoColData, twoColRecords, List.map_map, Function.comp]
  have hrecs : twoColRecords dn vn (r :: rs)
      = [(dn, Json.str r.1), (vn, Json.num r.2)] :: twoColRecords dn vn rs := by
    simp [twoColRecords]
  constructor
  · rw [hdata, hrecs, create_chart_on_records, ← hrecs, dispatch_trend]
    rw [create_time_series_chart]
    have hdcols : dateColsOf (mkDf (twoColRecords dn vn (r :: rs)))
        = dn :: List.filter
            (fun c => strContains (lowerStr c) "date" || strContains (lowerStr c) "time")
            [vn] := by
      simp only [dateColsOf, hcols, List.filter_cons, hp, if_true]
    rw [hdcols, hval]
  · rw [hdata, hrecs, create_chart_on_records, ← hrecs, dispatch_category]
    rw [create_category_chart, htext, hval]
    simp only [mkDf, twoColRecords, List.length_map]
    split <;> rfl

/-- Witness for C1 at the concrete two-row dataset. -/
theorem C1_witness :
    create_chart_if_needed (twoColData "date" "value" [("2024-01", 1), ("2024-02", 2)])
        "show the trend over time"
      = some (ChartSpec.line "date" "value" "Trend Analysis") ∧
    create_chart_if_needed (twoColData "date" "value" [("2024-01", 1), ("2024-02", 2)])
        "show distribution by category"
      = some (ChartSpec.pie "date" "value" "Distribution") := by
  have h := C1_selector_priority "date" "value" ("2024-01", 1) [("2024-02", 2)]
    (by decide) (Or.inl (by decide))
  simpa using h

/-- C4 — fallback coverage: any question containing `churn` or `risk`
returns the churn entry, whose table has exactly the three
High/Medium/Low rows with counts 3/8/15; a question containing `revenue`
or `upsell` and no keyword of the earlier churn entry returns the revenue
entry with its three rows; a question containing no topic keyword at all
returns nothing from the knowledge base. -/
theorem C4_fallback_coverage (q1 q2 q3 : String)
    (h1 : strContains (lowerStr q1) "churn" = true
      ∨ strContains (lowerStr q1) "risk" = true)
    (h2 : strContains (lowerStr q2) "revenue" = true
      ∨ strContains (lowerStr q2) "upsell" = true)
    (h2b : anyKeyword (lowerStr q2) ["churn", "risk", "leaving"] = false)
    (h3a : anyKeyword (lowerStr q3) ["churn", "risk", "leaving"] = false)
    (h3b : anyKeyword (lowerStr q3) ["revenue", "money", "opportunity", "upsell"] = false)
    (h3c : anyKeyword (lowerStr q3) ["support", "ticket", "issue", "problem"] = false) :
    fallbackLookup q1 = some churnResponse ∧
    churnRows.length = 3 ∧
    churnRows.map (fun row => rowGet row "Risk Level")
      = [some (Json.str "High"), some (Json.str "Medium"), some (Json.str "Low")] ∧
    churnRows.map (fun row => rowGet row "Count")
      = [some (Json.num 3), some (Json.num 8), some (Json.num 15)] ∧
    fallbackLookup q2 = some revenueResponse ∧
    revenueRows.length = 3 ∧
    fallbackLookup q3 = none := by
  refine ⟨?_, rfl, by rfl, by rfl, ?_, rfl, ?_⟩
  · have hc : anyKeyword (lowerStr q1) ["churn", "risk", "leaving"] = true := by
      rcases h1 with h | h <;> simp [anyKeyword, h]
    simp [fallbackLookup, hc]
  · have hrev : anyKeyword (lowerStr q2) ["revenue", "money", "opportunity", "upsell"]
        = true := by
      rcases h2 with h | h <;> simp [anyKeyword, h]
    simp [fallbackLookup, h2b, hrev]
  · simp [fallbackLookup, h3a, h3b, h3c]

/-- Witness for C4 at three concrete questions. -/
theorem C4_witness :
    fallbackLookup "churn" = some churnResponse ∧
    churnRows.length = 3 ∧
    churnRows.map (fun row => rowGet row "Risk Level")
      = [some (Json.str "High"), some (Json.str "Medium"), some (Json.str "Low")] ∧
    churnRows.map (fun row => rowGet row "Count")
      = [some (Json.num 3), some (Json.num 8), some (Json.num 15)] ∧
    fallbackLookup "can we upsell" = some revenueResponse ∧
    revenueRows.length = 3 ∧
    fallbackLookup "weather today" = none :=
  C4_fallback_coverage "churn" "can we upsell" "weather today"
    (Or.inl (by decide)) (Or.inr (by decide)) (by decide) (by decide) (by decide) (by decide)

/-- C5 counterexample data: two rows over two numeric columns. -/
def c5Data : Json :=
  Json.arr [Json.obj [("a", Json.num 1), ("b", Json.num 2)],
            Json.obj [("a", Json.num 3), ("b", Json.num 4)]]

/-- C5 counterexample — a dataset with two numeric columns and the context
`"correlation"` (which matches no earlier rule) yields the generic bar
chart, not the correlation scatter chart: `"correlation"` is not among the
code's relational keywords, which are only `risk` and `score`. -/
theorem C5_counterexample :
    valueColsOf (mkDf [[("a", Json.num 1), ("b", Json.num 2)],
                       [("a", Json.num 3), ("b", Json.num 4)]]) = ["a", "b"] ∧
    create_chart_if_needed c5Data "correlation"
      = some (ChartSpec.bar "a" "b" "Data Analysis") ∧
    create_chart_if_needed c5Data "correlation"
      ≠ some (ChartSpec.scatter "a" "b" "Correlation Analysis") := by
  refine ⟨by decide, by decide, by decide⟩

/-- C5 (amended) — correlation rule: for every dataset of records with at
least two numeric columns, if the lowercased context contains `risk` or
`score` (the code's relational keywords; `correlation` is not one) and no
earlier rule's keyword, the selector returns the correlation scatter chart
binding the first two numeric columns to the two axes. -/
theorem C5_correlation_rule (f : List (String × Json))
    (fs : List (List (String × Json))) (ctx : String) (a b : String)
    (rest : List String)
    (ht1 : strContains (lowerStr ctx) "trend" = false)
    (ht2 : strContains (lowerStr ctx) "time" = false)
    (ht3 : strContains (lowerStr ctx) "tier" = false)
    (ht4 : strContains (lowerStr ctx) "category" = false)
    (hk : strContains (lowerStr ctx) "risk" = true
      ∨ strContains (lowerStr ctx) "score" = true)
    (hval : valueColsOf (mkDf (f :: fs)) = a :: b :: rest) :
    create_chart_if_needed (.arr ((f :: fs).map Json.obj)) ctx
      = some (ChartSpec.scatter a b "Correlation Analysis") := by
  rw [create_chart_on_records]
  rcases hk with h | h <;>
    simp [dispatchChart, ht1, ht2, ht3, ht4, h, create_scatter_chart, hval]

/-- Witness for C5 at a concrete one-row two-numeric-column dataset. -/
theorem C5_witness :
    create_chart_if_needed (.arr ([[("a", Json.num 1), ("b", Json.num 2)]].map Json.obj))
        "risk"
      = some (ChartSpec.scatter "a" "b" "Correlation Analysis") :=
  C5_correlation_rule [("a", Json.num 1), ("b", Json.num 2)] [] "risk" "a" "b" []
    (by decide) (by decide) (by decide) (by decide) (Or.inl (by decide)) (by decide)

/-- C7 counterexample data: a temporal column and a column whose every cell
is a number stored as text. -/
def c7Data : List (List (String × Json)) :=
  [[("date", Json.str "2024-01"), ("v", Json.str "5")],
   [("date", Json.str "2024-02"), ("v", Json.str "7")]]

/-- C7 counterexample — a column whose every cell parses as a number but is
stored as text gets pandas dtype `object`, is not numeric-eligible, and the
trend context therefore yields no chart at all on this dataset (the claim
would make `v` a numeric axis and the result a time-series chart). -/
theorem C7_counterexample :
    dtypeOf (mkDf c7Data) "v" = Dtype.object ∧
    isNumericDtype (dtypeOf (mkDf c7Data) "v") = false ∧
    valueColsOf (mkDf c7Data) = [] ∧
    create_chart_if_needed (Json.arr (c7Data.map Json.obj)) "show the trend over time"
      = none := by
  refine ⟨by decide, by decide, by decide, by decide⟩

/-- C7 (amended) — value heuristic as implemented: a column is numeric
exactly when its cells are actual numbers (dtype `int64`), making it a
numeric axis candidate; a column of numbers stored as text has dtype
`object` and is excluded from the numeric columns. -/
theorem C7_value_heuristic (name : String) (n : Int) (ns : List Int)
    (t : String) (ts : List String) :
    dtypeOf (mkDf (oneColRecords name ((n :: ns).map Json.num))) name = Dtype.int64 ∧
    valueColsOf (mkDf (oneColRecords name ((n :: ns).map Json.num))) = [name] ∧
    dtypeOf (mkDf (oneColRecords name ((t :: ts).map Json.str))) name = Dtype.object ∧
    valueColsOf (mkDf (oneColRecords name ((t :: ts).map Json.str))) = [] := by
  have hnum : dtypeOf (mkDf (oneColRecords name (Json.num n :: ns.map Json.num))) name
      = Dtype.int64 := by
    rw [dtypeOf, oneCol_cells, List.map_cons]
    refine inferDtype_all_num _ _ ?_
    rw [List.all_eq_true]
    intro x hx
    rcases List.mem_cons.mp hx with rfl | hx
    · rfl
    · rw [List.map_map] at hx
      obtain ⟨m, hm, rfl⟩ := List.mem_map.mp hx
      rfl
  have hstr : dtypeOf (mkDf (oneColRecords name (Json.str t :: ts.map Json.str))) name
      = Dtype.object := by
    rw [dtypeOf, oneCol_cells, List.map_cons]
    exact inferDtype_head_str t _
  have hvnum : valueColsOf (mkDf (oneColRecords name (Json.num n :: ns.map Json.num)))
      = [name] := by
    simp [valueColsOf, oneCol_columns, hnum, isNumericDtype]
  have hvstr : valueColsOf (mkDf (oneColRecords name (Json.str t :: ts.map Json.str)))
      = [] := by
    simp [valueColsOf, oneCol_columns, hstr, isNumericDtype]
  exact ⟨by simpa using hnum, by simpa using hvnum, by simpa using hstr,
    by simpa using hvstr⟩

/-- C9 counterexample payload: an upstream value with a message and a
two-numeric-column data table. -/
def c9Payload : RawResponse :=
  RawResponse.text "raw" (some (Json.obj [("message", Json.str "m"), ("data", c5Data)]))

/-- C9 counterexample — the claim fails twice on the code: a non-null but
empty customerScope is falsy, so the general (question-carrying) query is
issued and two questions give different upstream requests; and even with a
truthy scope and the identical fixed upstream request, the question changes
the result on the success path (it is the chart-selection context), not only
through the fallback. -/
theorem C9_counterexample :
    buildUpstreamRequest "q1" (some "") = UpstreamRequest.askCustomer360 "q1" ∧
    buildUpstreamRequest "q1" (some "") ≠ buildUpstreamRequest "q2" (some "") ∧
    ask_ai (fun _ => UpstreamResult.value c9Payload) "show the trend over time" (some "C1")
      ≠ ask_ai (fun _ => UpstreamResult.value c9Payload) "risk analysis" (some "C1") := by
  have hL : ask_ai (fun _ => UpstreamResult.value c9Payload) "show the trend over time"
      (some "C1")
      = [("message", RVal.js (Json.str "m")), ("data", RVal.js c5Data),
         ("chart", RVal.js Json.null)] := by rfl
  have hR : ask_ai (fun _ => UpstreamResult.value c9Payload) "risk analysis" (some "C1")
      = [("message", RVal.js (Json.str "m")), ("data", RVal.js c5Data),
         ("chart", RVal.fig (ChartSpec.scatter "a" "b" "Correlation Analysis"))] := by rfl
  refine ⟨by decide, by decide, ?_⟩
  rw [hL, hR]
  simp

/-- C9 (amended) — for every truthy (non-null and non-empty) customerScope,
`ask_ai` issues the fixed upstream call `analyze_customer(scope, 'overview')`:
the question text is never sent upstream and two different questions with the
same scope issue the identical upstream request (the question still
influences the result locally, as normalization context and through the
fallback path). -/
theorem C9_scoped_request (q q' : String) (cid : String) (h : cid ≠ "") :
    buildUpstreamRequest q (some cid) = UpstreamRequest.analyzeCustomer cid "overview" ∧
    buildUpstreamRequest q (some cid) = buildUpstreamRequest q' (some cid) := by
  constructor <;> simp [buildUpstreamRequest, h]

/-- Witness for C9 at a concrete customer id. -/
theorem C9_witness :
    buildUpstreamRequest "q1" (some "CUST-001")
      = UpstreamRequest.analyzeCustomer "CUST-001" "overview" ∧
    buildUpstreamRequest "q1" (some "CUST-001") = buildUpstreamRequest "q2" (some "CUST-001") :=
  C9_scoped_request "q1" "q2" "CUST-001" (by decide)
